import Mathlib

/-!
Verification development for the data-catalog and query-middleware subsystem
of the dash-analytics-template repository (src/backend/sql/).

The embedding models:
  * the `administrative.table_catalog` relation (base.py, DUCKDB.init DDL) as a
    list of `CatalogRow`s; timestamps are abstract `Nat` clock values and the
    `NOW()` of a call is passed in explicitly as `now`;
  * the `datasets` schema of the embedded DuckDB store as an association list
    from table name to an abstract dataframe identity (`Nat`);
  * `DUCKDB.ingest` and `DUCKDB.pseudo_ingest` (base.py) as state transformers
    returning `OpResult` (final state plus an optional raised error);
  * `DuckDBMonitorMiddleware` (duck.py): `ask_available_tables`,
    `_find_referenced_tables` (with the external sqlparse tokenizer abstracted
    as an optional token list, `none` modelling a parse exception),
    `log_table_usage`, `log_table_update`, `log_query`, `get_dataframe`
    (with pandas' `read_sql` abstracted as an explicit query evaluator);
  * `get_connection_detail`, `update_connection_map` (base.py) and
    `get_connector` (__init__.py), with the cluster registry passed explicitly.

The storage engine's transaction behaviour on the counter upserts is modelled
by a `TxnOutcome` parameter: `ok` (statement applied), `conflict`
(duckdb.TransactionException: transaction aborted, nothing applied) and
`failure` (any other exception raised by the engine).
-/

namespace DashSql

/-- The `etc` JSON payload of a catalog row, restricted to the keys the code
and its dataset-definition documents use (cluster, optional friendly cluster
name, database, query text, optional post-process expression). -/
structure Etc where
  cluster : Option String := none
  cluster_friendly_name : Option String := none
  database : Option String := none
  sql : Option String := none
  post_process : Option String := none
  deriving Repr, DecidableEq

/-- One row of `administrative.table_catalog`, with the column defaults of the
DDL in `DUCKDB.init` (base.py): `table_type 'system'`, `owned_by 'unknown'`,
counters 0, timestamps `CURRENT_TIMESTAMP`, `is_pseudo_table FALSE`,
`external_type NULL`, `etc '{}'`. -/
structure CatalogRow where
  table_name : String
  table_description : Option String := none
  table_type : String := "system"
  owned_by : String := "unknown"
  created : Nat := 0
  updates : Nat := 0
  updated : Nat := 0
  hits : Nat := 0
  last_hit : Nat := 0
  is_pseudo_table : Bool := false
  external_type : Option String := none
  etc : Etc := {}
  deriving Repr, DecidableEq

/-- The embedded store: the `datasets` schema (name to abstract dataframe
content) and the `administrative.table_catalog` relation. -/
structure DBState where
  datasets : List (String × Nat)
  catalog : List CatalogRow
  deriving Repr, DecidableEq

/-- Result of a catalog operation: the final state, plus the raised error when
the Python call ended in an exception (the state records any effects already
committed before the raise). -/
inductive OpResult where
  | ok : DBState → OpResult
  | err : String → DBState → OpResult
  deriving Repr, DecidableEq

def OpResult.state : OpResult → DBState
  | .ok s => s
  | .err _ s => s

def OpResult.isOk : OpResult → Bool
  | .ok _ => true
  | .err _ _ => false

/-- A fresh catalog row carrying only the DDL defaults, at clock `now`. -/
def catalogDefaults (table_name : String) (now : Nat) : CatalogRow :=
  { table_name := table_name, created := now, updated := now, last_hit := now }

/-- The row inserted by the plain `INSERT` path of `DUCKDB.ingest`: the params
dict holds `table_name` plus each optional argument that is not `None`; every
omitted column takes its DDL default. -/
def newRowFromParams (table_name : String) (table_description table_type owned_by : Option String)
    (now : Nat) : CatalogRow :=
  let r := catalogDefaults table_name now
  { r with
    table_description := match table_description with
      | some v => some v
      | none => r.table_description
    table_type := table_type.getD r.table_type
    owned_by := owned_by.getD r.owned_by }

/-- The effect of `CREATE OR REPLACE TABLE datasets.{table_name} AS ...`:
any prior table of that name is dropped and the new one created. -/
def upsertDataset (ds : List (String × Nat)) (table_name : String) (df : Nat) :
    List (String × Nat) :=
  ds.filter (fun p => !(p.1 == table_name)) ++ [(table_name, df)]

/-- `DUCKDB.ingest` (base.py lines 110-147).  The existence check queries
`duckdb_tables()` for a materialized table of that name in the `datasets`
schema; the dataframe is then materialized with replace semantics.  When the
materialized table already existed the catalog statement is
`INSERT ... ON CONFLICT (table_name) DO UPDATE SET updates = updates + 1,
updated = NOW()` — on conflict only the counters change; when it did not
exist, a plain `INSERT` of the params is issued, which raises a primary-key
constraint error if a catalog row of that name already exists. -/
def ingest (df : Nat) (table_name : String)
    (table_description table_type owned_by : Option String)
    (now : Nat) (s : DBState) : OpResult :=
  if (s.datasets.lookup table_name).isSome then
    if s.catalog.any (fun r => r.table_name == table_name) then
      .ok { datasets := upsertDataset s.datasets table_name df,
            catalog := s.catalog.map (fun r =>
              if r.table_name == table_name then
                { r with updates := r.updates + 1, updated := now }
              else r) }
    else
      .ok { datasets := upsertDataset s.datasets table_name df,
            catalog := s.catalog ++
              [{ newRowFromParams table_name table_description table_type owned_by now with
                  updates := 1, updated := now }] }
  else
    if s.catalog.any (fun r => r.table_name == table_name) then
      .err "ConstraintException: duplicate key"
        { s with datasets := upsertDataset s.datasets table_name df }
    else
      .ok { datasets := upsertDataset s.datasets table_name df,
            catalog := s.catalog ++
              [newRowFromParams table_name table_description table_type owned_by now] }

/-- One entry of the PostgreSQL cluster registry (`POSTGRES.CLUSTERS`,
loaded from the application config): the set of valid database names plus the
base connection properties that are merged into a `PostgresConnectionDetail`.
Properties a config entry may omit are optional. -/
structure ClusterInfo where
  databases : List String := []
  cluster : Option String := none
  port : Option Nat := none
  username : Option String := none
  password : Option String := none
  deriving Repr, DecidableEq

/-- Modelled from the spec: the JSON-schema document `pg.schema.json`
(referenced by `POSTGRES.ETC_SCHEMA`, the validator for a pseudo-ingest `etc`
payload) is not part of the sources.  Per the spec the payload holds the
connection coordinates "cluster, database, query text, optional
post-processing expression", with the friendly cluster name optional, so
validation requires `cluster`, `database` and `sql` to be present. -/
def etcSchemaOk (e : Etc) : Bool :=
  e.cluster.isSome && e.database.isSome && e.sql.isSome

/-- The validation performed by `DUCKDB.pseudo_ingest` before it touches the
store: the `external_type` must be the known `"postgres"`, the `etc` payload
must pass schema validation, and the named cluster and database must both be
registered (`etc['cluster'] in POSTGRES.CLUSTERS` and `etc['database'] in
POSTGRES.CLUSTERS.get(cluster, {}).get('databases', [])`). -/
def pseudoIngestValid (external_type : String) (e : Etc)
    (clusters : List (String × ClusterInfo)) : Bool :=
  external_type == "postgres" && etcSchemaOk e &&
  (clusters.lookup (e.cluster.getD "")).isSome &&
  (((clusters.lookup (e.cluster.getD "")).getD {}).databases.contains (e.database.getD ""))

/-- `DUCKDB.pseudo_ingest` (base.py lines 149-209).  Validation (schema, then
cluster/database registration) happens before any store access; the existence
check queries the catalog itself; on an existing row the upsert's
`ON CONFLICT` clause sets every supplied field, increments `updates` and
refreshes `updated`; on a fresh name a plain insert of the params (which
always include `is_pseudo_table = true`, the `external_type` and the `etc`
payload) is issued. -/
def pseudoIngest (table_name : String)
    (table_description table_type owned_by : Option String)
    (external_type : String) (etc0 : Option Etc)
    (clusters : List (String × ClusterInfo))
    (now : Nat) (s : DBState) : OpResult :=
  if external_type == "postgres" then
    if !etcSchemaOk (etc0.getD {}) then
      .err "ValidationError" s
    else if !((clusters.lookup ((etc0.getD {}).cluster.getD "")).isSome &&
        (((clusters.lookup ((etc0.getD {}).cluster.getD "")).getD {}).databases.contains
          ((etc0.getD {}).database.getD ""))) then
      .err "ValueError: cluster or database does not exist in the configuration" s
    else
      if s.catalog.any (fun r => r.table_name == table_name) then
        .ok { s with catalog := s.catalog.map (fun r =>
          if r.table_name == table_name then
            { r with
              table_description := match table_description with
                | some v => some v
                | none => r.table_description
              table_type := table_type.getD r.table_type
              owned_by := owned_by.getD r.owned_by
              is_pseudo_table := true
              external_type := some external_type
              etc := etc0.getD {}
              updates := r.updates + 1
              updated := now }
          else r) }
      else
        .ok { s with catalog := s.catalog ++
          [{ newRowFromParams table_name table_description table_type owned_by now with
              is_pseudo_table := true, external_type := some external_type,
              etc := etc0.getD {} }] }
  else
    .err "ValueError: Unknown external_type" s

/-- The fixed system-table denylist `DUCKDB.SYSTEM_TABLES` (base.py). -/
def SYSTEM_TABLES : List String :=
  ["current_notebook_id", "has_onboarded", "notebooks", "notebook_versions"]

/-- Whether a name matches the SQL `LIKE` pattern `'mdClientCache_%'`
(`DUCKDB.MOTHERDUCK_TABLES_WILDCARD`): the 13 literal characters
`mdClientCache` followed by at least one further character. -/
def mdWildcardMatch (n : String) : Bool :=
  decide (14 ≤ n.data.length) && (n.data.take 13 == "mdClientCache".data)

/-- `DuckDBMonitorMiddleware.ask_available_tables` (duck.py): the names of the
materialized tables of the `datasets` schema, excluding the system-table
denylist and the names matching the client-cache wildcard. -/
def askAvailableTables (s : DBState) : List String :=
  (s.datasets.map Prod.fst).filter
    (fun n => !(SYSTEM_TABLES.contains n) && !(mdWildcardMatch n))

/-- The character-class of the regex `\b` word boundary: ASCII letters, digits
and underscore. -/
def isWordChar (c : Char) : Bool := c.isAlphanum || c == Char.ofNat 95

def prefixMatches : List Char → List Char → Bool
  | [], _ => true
  | _ :: _, [] => false
  | p :: ps, h :: hs => p == h && prefixMatches ps hs

/-- There is no word character immediately after the first `len` characters. -/
def boundaryAfterOk (hay : List Char) (len : Nat) : Bool :=
  match hay.drop len with
  | [] => true
  | c :: _ => !isWordChar c

/-- Scan all positions of the haystack for a whole-word occurrence of the
pattern; `prev` is the character just before the current position. -/
def wwSearchAux (pat : List Char) : Option Char → List Char → Bool
  | _, [] => false
  | prev, c :: rest =>
    ((match prev with
      | none => true
      | some p => !isWordChar p)
      && prefixMatches pat (c :: rest)
      && boundaryAfterOk (c :: rest) pat.length)
    || wwSearchAux pat (some c) rest

/-- `re.search(r'\b' + re.escape(pat) + r'\b', hay)` for a pattern made of
word characters: a whole-word occurrence of `pat` in `hay`. -/
def wholeWordMatch (hay pat : String) : Bool :=
  wwSearchAux pat.data none hay.data

def dquoteChar : Char := Char.ofNat 34
def squoteChar : Char := Char.ofNat 39
def backtickChar : Char := Char.ofNat 96

/-- Python `str.strip(c)`: drop every leading and trailing occurrence of `c`. -/
def stripCharEnds (c : Char) (l : List Char) : List Char :=
  ((l.dropWhile (fun x => x == c)).reverse.dropWhile (fun x => x == c)).reverse

/-- Python `str.strip()`: drop leading and trailing whitespace. -/
def pyStrip (l : List Char) : List Char :=
  ((l.dropWhile Char.isWhitespace).reverse.dropWhile Char.isWhitespace).reverse

/-- Python `str.upper()` on the ASCII SQL text: character-wise upper-casing. -/
def strUpper (s : String) : String :=
  String.mk (s.data.map Char.toUpper)

/-- The token cleaning of `_find_referenced_tables` (duck.py line 81):
`token.strip().strip(chr(34)).strip(chr(39)).strip(chr(96))` — whitespace,
then double quotes, then single quotes, then backticks stripped from both
ends. -/
def cleanToken (t : String) : String :=
  String.mk (stripCharEnds backtickChar (stripCharEnds squoteChar
    (stripCharEnds dquoteChar (pyStrip t.data))))

/-- The sqlparse branch of `_find_referenced_tables`: the distinct set of
leaf tokens that, once cleaned, exactly equal a known table name.
`parseTokens = none` models `sqlparse.parse` raising (the broad `except`
around the branch), which leaves the set empty. -/
def parseMatches (parseTokens : Option (List String)) (tables : List String) : List String :=
  match parseTokens with
  | some toks => ((toks.map cleanToken).filter (fun t => tables.contains t)).dedup
  | none => []

/-- `DuckDBMonitorMiddleware._find_referenced_tables` (duck.py lines 71-96):
the sqlparse branch first; if it raised or produced no match, the fallback
scans the upper-cased raw SQL for a whole-word occurrence of each upper-cased
known table name. -/
def findReferencedTables (parseTokens : Option (List String)) (sql : String)
    (tables : List String) : List String :=
  if (parseMatches parseTokens tables).isEmpty then
    tables.filter (fun t => wholeWordMatch (strUpper sql) (strUpper t))
  else parseMatches parseTokens tables

/-- Outcome of executing a counter-upsert statement against the storage
engine: applied, aborted with `duckdb.TransactionException`, or aborted with
any other engine exception (carrying its description). -/
inductive TxnOutcome where
  | ok : TxnOutcome
  | conflict : TxnOutcome
  | failure : String → TxnOutcome
  deriving Repr, DecidableEq

/-- The per-name effect of the batched hit upsert
`INSERT ... (table_name, hits, last_hit) SELECT name, 1, NOW() ...
ON CONFLICT (table_name) DO UPDATE SET hits = hits + 1, last_hit = NOW()`:
an existing row gets `hits + 1` and a fresh `last_hit`; a missing name gets a
fresh default row with `hits = 1`. -/
def bumpHit (now : Nat) (n : String) (cat : List CatalogRow) : List CatalogRow :=
  if cat.any (fun r => r.table_name == n) then
    cat.map (fun r =>
      if r.table_name == n then { r with hits := r.hits + 1, last_hit := now } else r)
  else cat ++ [{ catalogDefaults n now with hits := 1 }]

/-- The per-name effect of the batched update upsert of `log_table_update`. -/
def bumpUpdate (now : Nat) (n : String) (cat : List CatalogRow) : List CatalogRow :=
  if cat.any (fun r => r.table_name == n) then
    cat.map (fun r =>
      if r.table_name == n then { r with updates := r.updates + 1, updated := now } else r)
  else cat ++ [{ catalogDefaults n now with updates := 1 }]

/-- The whole-set effect of the single batched hit-upsert statement. -/
def applyHitUpsert (tables : List String) (now : Nat) (cat : List CatalogRow) :
    List CatalogRow :=
  tables.foldl (fun c n => bumpHit now n c) cat

/-- The whole-set effect of the single batched update-upsert statement. -/
def applyUpdateUpsert (tables : List String) (now : Nat) (cat : List CatalogRow) :
    List CatalogRow :=
  tables.foldl (fun c n => bumpUpdate now n c) cat

/-- `DuckDBMonitorMiddleware.log_table_usage` (duck.py lines 110-131): one
batched upsert, with `duckdb.TransactionException` swallowed (the statement's
transaction aborted, so nothing was applied) and every other exception
propagated. -/
def logTableUsage (tables : List String) (outcome : TxnOutcome) (now : Nat)
    (s : DBState) : OpResult :=
  match outcome with
  | .ok => .ok { s with catalog := applyHitUpsert tables now s.catalog }
  | .conflict => .ok s
  | .failure e => .err e s

/-- `DuckDBMonitorMiddleware.log_table_update` (duck.py lines 134-155): the
sibling of `log_table_usage` acting on `updates`/`updated`. -/
def logTableUpdate (tables : List String) (outcome : TxnOutcome) (now : Nat)
    (s : DBState) : OpResult :=
  match outcome with
  | .ok => .ok { s with catalog := applyUpdateUpsert tables now s.catalog }
  | .conflict => .ok s
  | .failure e => .err e s

/-- `DuckDBMonitorMiddleware.log_query` (duck.py lines 99-108): enumerate the
available tables, detect the referenced ones, and if the set is non-empty
issue one `log_table_usage` call for the whole set. -/
def logQuery (parseTokens : Option (List String)) (sql : String)
    (outcome : TxnOutcome) (now : Nat) (s : DBState) : OpResult :=
  match findReferencedTables parseTokens sql (askAvailableTables s) with
  | [] => .ok s
  | referenced => logTableUsage referenced outcome now s

/-- `DuckDBMonitorMiddleware.get_dataframe` (duck.py lines 158-163): unless
`skip_logging` is set, the query is logged first, then executed; pandas'
`read_sql` is abstracted as the explicit evaluator `queryEval`. -/
def getDataframe (queryEval : String → DBState → Except String Nat)
    (parseTokens : Option (List String)) (sql : String) (skipLogging : Bool)
    (outcome : TxnOutcome) (now : Nat) (s : DBState) :
    Except String (DBState × Nat) :=
  match (if skipLogging then .ok s else logQuery parseTokens sql outcome now s : OpResult) with
  | .err e _ => .error e
  | .ok s1 =>
    match queryEval sql s1 with
    | .ok df => .ok (s1, df)
    | .error e => .error e

/-- The two connection-detail variants of base.py: `DuckDbConnectionDetail`
(no fields) and `PostgresConnectionDetail` (pydantic model with fields
cluster, optional cluster_friendly_name, port, username, password,
database). -/
inductive ConnectionDetail where
  | duck : ConnectionDetail
  | postgres (cluster : String) (cluster_friendly_name : Option String)
      (port : Nat) (username password database : String) : ConnectionDetail
  deriving Repr, DecidableEq

/-- The `friendly_name` properties: `"Flatfiles"` for the local variant and
`"PostgreSQL: {database}@{cluster_friendly_name or cluster}"` for the
external one. -/
def friendlyName : ConnectionDetail → String
  | .duck => "Flatfiles"
  | .postgres cluster cfn _ _ _ database =>
    "PostgreSQL: " ++ database ++ "@" ++ (cfn.getD cluster)

/-- The body of the `try` block of `get_connection_detail` (base.py lines
364-386).  For `'postgres'` the merged dict is
`config clusters .get(etc['cluster'], {}) | {cluster_friendly_name:
etc['cluster_friendly_name'], database: etc['database']}`; a missing `etc` key
raises `KeyError` and a merged dict lacking a required pydantic field raises a
validation error.  An unknown connection type returns `None` without
raising. -/
def getConnectionDetailInner (connection_type : String) (e : Etc)
    (clusters : List (String × ClusterInfo)) : Except String (Option ConnectionDetail) :=
  if connection_type == "duck" then
    .ok (some .duck)
  else if connection_type == "postgres" then
    match e.cluster with
    | none => .error "KeyError: cluster"
    | some cl =>
      let base := (clusters.lookup cl).getD {}
      match e.cluster_friendly_name with
      | none => .error "KeyError: cluster_friendly_name"
      | some cfn =>
        match e.database with
        | none => .error "KeyError: database"
        | some db =>
          match base.cluster, base.port, base.username, base.password with
          | some host, some port, some user, some pw =>
            .ok (some (.postgres host (some cfn) port user pw db))
          | _, _, _, _ => .error "ValidationError"
  else .ok none

/-- `get_connection_detail` (base.py): the broad `except` turns every raised
error into `None`. -/
def getConnectionDetail (connection_type : String) (e : Etc)
    (clusters : List (String × ClusterInfo)) : Option ConnectionDetail :=
  match getConnectionDetailInner connection_type e clusters with
  | .ok v => v
  | .error _ => none

/-- `PostgresMonitorMiddleware.ask_available_tables` with `with_etc=True`
(postgres.py): the `(table_name, etc)` pairs of the catalog rows whose
`external_type` is `'postgres'`. -/
def askAvailableTablesPg (s : DBState) : List (String × Etc) :=
  (s.catalog.filter (fun r => r.external_type == some "postgres")).map
    (fun r => (r.table_name, r.etc))

/-- Python `dict` union `l | r`: the keys of `l` in order (their value
overridden by `r` where present), then the keys of `r` not in `l`. -/
def dictUnion {α : Type} (l r : List (String × α)) : List (String × α) :=
  l.map (fun p => (r.lookup p.1).elim p (fun v => (p.1, v))) ++
    r.filter (fun p => (l.lookup p.1).isNone)

/-- `update_connection_map` (base.py lines 391-405): resolve a local detail
for every available materialized table and an external detail for every
postgres catalog entry, drop the `None` resolutions, and union the two maps
(postgres overriding on a name collision). -/
def updateConnectionMap (s : DBState) (clusters : List (String × ClusterInfo)) :
    List (String × ConnectionDetail) :=
  let duckDetails := (askAvailableTables s).filterMap (fun t =>
    (getConnectionDetail "duck" {} clusters).map (fun d => (t, d)))
  let pgDetails := (askAvailableTablesPg s).filterMap (fun p =>
    (getConnectionDetail "postgres" p.2 clusters).map (fun d => (p.1, d)))
  dictUnion duckDetails pgDetails

/-- The two monitor-middleware singletons of `__init__.py`. -/
inductive ConnectorType where
  | duckMW : ConnectorType
  | postgresMW : ConnectorType
  deriving Repr, DecidableEq

/-- `get_connector` (__init__.py lines 12-17): a dict mapping every available
DuckDB table to the DuckDB middleware and every registered postgres
pseudo-table to the Postgres middleware, then `dict.get` on the name. -/
def getConnector (s : DBState) (table_name : String) : Option ConnectorType :=
  (dictUnion ((askAvailableTables s).map (fun t => (t, ConnectorType.duckMW)))
    ((askAvailableTablesPg s).map (fun p => (p.1, ConnectorType.postgresMW)))).lookup
    table_name

/-- `DuckDbConnectionDetail.get_dataframe` (base.py lines 322-327), reduced to
the effective SQL text it passes to `DuckDBMonitorMiddleware.get_dataframe`:
a `ValueError` when both arguments are `None`, otherwise
`sql or f"SELECT * FROM datasets.{table_name};"` (Python `or`: an empty SQL
string also falls back to the default, and a `None` table name prints as
`None` in the f-string). -/
def duckDetailGetDataframe (table_name sql : Option String) : Except String String :=
  if table_name.isNone && sql.isNone then
    .error "ValueError: Either table_name or sql must be provided."
  else
    .ok (match sql with
      | some q =>
        if q == "" then "SELECT * FROM datasets." ++ table_name.getD "None" ++ ";" else q
      | none => "SELECT * FROM datasets." ++ table_name.getD "None" ++ ";")

/-- The row conditions of the catalog invariant of spec §3, for a catalog
`cat` against the materialized tables `ds`: `is_pseudo_table` iff
`external_type` non-null; an `external_type`-null row has a materialized
table in the embedded store; an `external_type = 'postgres'` row has none. -/
def rowsInv (ds : List (String × Nat)) (cat : List CatalogRow) : Prop :=
  ∀ r ∈ cat,
    (r.is_pseudo_table = true ↔ r.external_type ≠ none) ∧
    (r.external_type = none → (ds.lookup r.table_name).isSome = true) ∧
    (r.external_type = some "postgres" → (ds.lookup r.table_name).isSome = false)

/-- The catalog invariant of spec §3, stated for a whole database state. -/
def catalogInvariant (s : DBState) : Prop :=
  rowsInv s.datasets s.catalog

instance (ds : List (String × Nat)) (cat : List CatalogRow) : Decidable (rowsInv ds cat) := by
  unfold rowsInv
  infer_instance

instance (s : DBState) : Decidable (catalogInvariant s) := by
  unfold catalogInvariant
  infer_instance

/-- C10: the local connection handle's `get_dataframe` raises a `ValueError`
when called with both `table_name` and `sql` absent; when at least one is
supplied it proceeds, and with `sql` absent the query defaults to selecting
the whole named table from the `datasets` namespace. -/
theorem C10_get_dataframe_args :
    duckDetailGetDataframe none none =
      .error "ValueError: Either table_name or sql must be provided." ∧
    (∀ t : String,
      duckDetailGetDataframe (some t) none = .ok ("SELECT * FROM datasets." ++ t ++ ";")) ∧
    (∀ (tn : Option String) (q : String), q ≠ "" →
      duckDetailGetDataframe tn (some q) = .ok q) := by
  refine ⟨rfl, fun t => rfl, fun tn q hq => ?_⟩
  have hq' : (q == "") = false := by
    simpa using hq
  cases tn <;> simp [duckDetailGetDataframe, hq']

theorem C10_get_dataframe_args_witness :
    ("SELECT 1;" : String) ≠ "" ∧
    duckDetailGetDataframe (some "iris") (some "SELECT 1;") = .ok "SELECT 1;" :=
  ⟨by decide, C10_get_dataframe_args.2.2 (some "iris") "SELECT 1;" (by decide)⟩

/-- C3: the counter increments swallow exactly the storage engine's
transaction-conflict class (`duckdb.TransactionException`) and rethrow every
other exception, and a conflict during hit logging inside `get_dataframe`
still delivers the query's dataframe result to the caller. -/
theorem C3_ostrich_policy :
    (∀ (tables : List String) (now : Nat) (s : DBState),
      logTableUsage tables .conflict now s = .ok s) ∧
    (∀ (tables : List String) (e : String) (now : Nat) (s : DBState),
      logTableUsage tables (.failure e) now s = .err e s) ∧
    (∀ (tables : List String) (now : Nat) (s : DBState),
      logTableUpdate tables .conflict now s = .ok s) ∧
    (∀ (tables : List String) (e : String) (now : Nat) (s : DBState),
      logTableUpdate tables (.failure e) now s = .err e s) ∧
    (∀ (queryEval : String → DBState → Except String Nat) (pt : Option (List String))
      (sql : String) (now : Nat) (s : DBState) (df : Nat),
      queryEval sql s = .ok df →
      getDataframe queryEval pt sql false .conflict now s = .ok (s, df)) := by
  refine ⟨fun _ _ _ => rfl, fun _ _ _ _ => rfl, fun _ _ _ => rfl, fun _ _ _ _ => rfl,
    fun queryEval pt sql now s df hq => ?_⟩
  have hlog : logQuery pt sql .conflict now s = .ok s := by
    unfold logQuery
    cases findReferencedTables pt sql (askAvailableTables s) <;> rfl
  unfold getDataframe
  rw [if_neg (by simp), hlog]
  simp [hq]

theorem C3_ostrich_policy_witness :
    (fun (_ : String) (_ : DBState) => (Except.ok 42 : Except String Nat)) "SELECT 1;"
      (⟨[], []⟩ : DBState) = .ok 42 ∧
    getDataframe (fun _ _ => .ok 42) none "SELECT 1;" false .conflict 0 ⟨[], []⟩ =
      .ok (⟨[], []⟩, 42) :=
  ⟨rfl, C3_ostrich_policy.2.2.2.2 (fun _ _ => .ok 42) none "SELECT 1;" 0 ⟨[], []⟩ 42 rfl⟩

/-- C4: a `pseudo_ingest` call whose payload fails schema validation, names an
unregistered cluster or database, or carries an unknown `external_type`
raises an error and leaves the catalog state exactly as it was (validation
happens before any upsert). -/
theorem C4_validation_before_upsert :
    ∀ (tn : String) (d t o : Option String) (et : String) (etc0 : Option Etc)
      (clusters : List (String × ClusterInfo)) (now : Nat) (s : DBState),
      pseudoIngestValid et (etc0.getD {}) clusters = false →
      (pseudoIngest tn d t o et etc0 clusters now s).isOk = false ∧
      (pseudoIngest tn d t o et etc0 clusters now s).state = s := by
  intro tn d t o et etc0 clusters now s h
  unfold pseudoIngestValid at h
  unfold pseudoIngest
  by_cases hA : (et == "postgres") = true
  · rw [hA, Bool.true_and] at h
    by_cases hB : etcSchemaOk (etc0.getD {}) = true
    · rw [hB, Bool.true_and] at h
      rw [hA, hB, h]
      exact ⟨rfl, rfl⟩
    · have hB' : etcSchemaOk (etc0.getD {}) = false := eq_false_of_ne_true hB
      rw [hA, hB']
      exact ⟨rfl, rfl⟩
  · have hA' : (et == "postgres") = false := eq_false_of_ne_true hA
    rw [hA']
    exact ⟨rfl, rfl⟩

lemma ingest_existing_eq (df : Nat) (tn : String) (d t o : Option String) (now : Nat)
    (s : DBState) (hds : (s.datasets.lookup tn).isSome = true)
    (hrow : s.catalog.any (fun r => r.table_name == tn) = true) :
    ingest df tn d t o now s = .ok
      { datasets := upsertDataset s.datasets tn df,
        catalog := s.catalog.map (fun r =>
          if r.table_name == tn then { r with updates := r.updates + 1, updated := now }
          else r) } := by
  unfold ingest
  rw [hds, hrow]
  rfl

lemma ingest_matonly_eq (df : Nat) (tn : String) (d t o : Option String) (now : Nat)
    (s : DBState) (hds : (s.datasets.lookup tn).isSome = true)
    (hrow : s.catalog.any (fun r => r.table_name == tn) = false) :
    ingest df tn d t o now s = .ok
      { datasets := upsertDataset s.datasets tn df,
        catalog := s.catalog ++
          [{ newRowFromParams tn d t o now with updates := 1, updated := now }] } := by
  unfold ingest
  rw [hds, hrow]
  rfl

lemma ingest_err_eq (df : Nat) (tn : String) (d t o : Option String) (now : Nat)
    (s : DBState) (hds : (s.datasets.lookup tn).isSome = false)
    (hrow : s.catalog.any (fun r => r.table_name == tn) = true) :
    ingest df tn d t o now s = .err "ConstraintException: duplicate key"
      { s with datasets := upsertDataset s.datasets tn df } := by
  unfold ingest
  rw [hds, hrow]
  rfl

lemma ingest_fresh_eq (df : Nat) (tn : String) (d t o : Option String) (now : Nat)
    (s : DBState) (hds : (s.datasets.lookup tn).isSome = false)
    (hrow : s.catalog.any (fun r => r.table_name == tn) = false) :
    ingest df tn d t o now s = .ok
      { datasets := upsertDataset s.datasets tn df,
        catalog := s.catalog ++ [newRowFromParams tn d t o now] } := by
  unfold ingest
  rw [hds, hrow]
  rfl

lemma pseudoIngestValid_split (et : String) (e : Etc) (clusters : List (String × ClusterInfo))
    (hv : pseudoIngestValid et e clusters = true) :
    (et == "postgres") = true ∧ etcSchemaOk e = true ∧
    (clusters.lookup (e.cluster.getD "")).isSome = true ∧
    ((clusters.lookup (e.cluster.getD "")).getD {}).databases.contains (e.database.getD "") =
      true := by
  unfold pseudoIngestValid at hv
  rw [Bool.and_eq_true, Bool.and_eq_true, Bool.and_eq_true] at hv
  exact ⟨hv.1.1.1, hv.1.1.2, hv.1.2, hv.2⟩

lemma pseudoIngest_existing_eq (tn : String) (d t o : Option String) (etc0 : Option Etc)
    (clusters : List (String × ClusterInfo)) (now : Nat) (s : DBState)
    (hv : pseudoIngestValid "postgres" (etc0.getD {}) clusters = true)
    (hrow : s.catalog.any (fun r => r.table_name == tn) = true) :
    pseudoIngest tn d t o "postgres" etc0 clusters now s = .ok
      { s with catalog := s.catalog.map (fun r =>
        if r.table_name == tn then
          { r with
            table_description := match d with | some v => some v | none => r.table_description
            table_type := t.getD r.table_type
            owned_by := o.getD r.owned_by
            is_pseudo_table := true
            external_type := some "postgres"
            etc := etc0.getD {}
            updates := r.updates + 1
            updated := now }
        else r) } := by
  obtain ⟨_, hb, hc, hd⟩ := pseudoIngestValid_split _ _ _ hv
  unfold pseudoIngest
  rw [hb, hc, hd, hrow]
  rfl

lemma pseudoIngest_fresh_eq (tn : String) (d t o : Option String) (etc0 : Option Etc)
    (clusters : List (String × ClusterInfo)) (now : Nat) (s : DBState)
    (hv : pseudoIngestValid "postgres" (etc0.getD {}) clusters = true)
    (hrow : s.catalog.any (fun r => r.table_name == tn) = false) :
    pseudoIngest tn d t o "postgres" etc0 clusters now s = .ok
      { s with catalog := s.catalog ++
        [{ newRowFromParams tn d t o now with
            is_pseudo_table := true, external_type := some "postgres",
            etc := etc0.getD {} }] } := by
  obtain ⟨_, hb, hc, hd⟩ := pseudoIngestValid_split _ _ _ hv
  unfold pseudoIngest
  rw [hb, hc, hd, hrow]
  rfl

lemma pseudoIngest_invalid_state (tn : String) (d t o : Option String) (et : String)
    (etc0 : Option Etc) (clusters : List (String × ClusterInfo)) (now : Nat) (s : DBState)
    (h : pseudoIngestValid et (etc0.getD {}) clusters = false) :
    (pseudoIngest tn d t o et etc0 clusters now s).isOk = false ∧
    (pseudoIngest tn d t o et etc0 clusters now s).state = s := by
  unfold pseudoIngestValid at h
  unfold pseudoIngest
  by_cases hA : (et == "postgres") = true
  · rw [hA, Bool.true_and] at h
    by_cases hB : etcSchemaOk (etc0.getD {}) = true
    · rw [hB, Bool.true_and] at h
      rw [hA, hB, h]
      exact ⟨rfl, rfl⟩
    · have hB' : etcSchemaOk (etc0.getD {}) = false := eq_false_of_ne_true hB
      rw [hA, hB']
      exact ⟨rfl, rfl⟩
  · have hA' : (et == "postgres") = false := eq_false_of_ne_true hA
    rw [hA']
    exact ⟨rfl, rfl⟩

lemma contains_eq_true_of_mem {l : List String} {a : String} (h : a ∈ l) :
    l.contains a = true := by
  simp [h]

lemma contains_eq_false_of_not_mem {l : List String} {a : String} (h : a ∉ l) :
    l.contains a = false := by
  simp [h]

/-- Updating the rows named `n` with a name-preserving function does not change
which names occur in the catalog, so `List.any` over a name predicate is
unchanged. -/
lemma any_name_map (upd : CatalogRow → CatalogRow)
    (hupd : ∀ r, (upd r).table_name = r.table_name) (n m : String)
    (cat : List CatalogRow) :
    (cat.map (fun r => if r.table_name == n then upd r else r)).any
      (fun r => r.table_name == m) = cat.any (fun r => r.table_name == m) := by
  rw [List.any_map]
  have hfun : ((fun r => r.table_name == m) ∘
      (fun r => if r.table_name == n then upd r else r)) =
      fun (r : CatalogRow) => r.table_name == m := by
    funext r
    by_cases h : (r.table_name == n) = true
    · simp [Function.comp, h, hupd r]
    · simp [Function.comp, h]
  rw [hfun]

/-- A fold of per-name upserts over a duplicate-free name list, when every
name already has a row, equals a single map bumping each named row once. -/
lemma foldBump_eq_map (step : String → List CatalogRow → List CatalogRow)
    (upd : CatalogRow → CatalogRow)
    (hupd : ∀ r, (upd r).table_name = r.table_name)
    (hstep : ∀ n c, c.any (fun r => r.table_name == n) = true →
      step n c = c.map (fun r => if r.table_name == n then upd r else r))
    (tables : List String) :
    ∀ cat : List CatalogRow, tables.Nodup →
      (∀ t ∈ tables, cat.any (fun r => r.table_name == t) = true) →
      tables.foldl (fun c n => step n c) cat =
        cat.map (fun r => if tables.contains r.table_name then upd r else r) := by
  induction tables with
  | nil =>
    intro cat _ _
    simp
  | cons t ts ih =>
    intro cat hnd hall
    rw [List.nodup_cons] at hnd
    rw [List.foldl_cons, hstep t cat (hall t (List.mem_cons_self t ts))]
    rw [ih _ hnd.2 (fun u hu => by
      rw [any_name_map upd hupd]
      exact hall u (List.mem_cons_of_mem t hu))]
    rw [List.map_map]
    apply List.map_congr_left
    intro r _
    by_cases ht : (r.table_name == t) = true
    · have htn : r.table_name = t := beq_iff_eq.mp ht
      simp [Function.comp, ht, hupd r, htn, hnd.1]
    · have hne : r.table_name ≠ t := by
        simpa using ht
      simp [Function.comp, ht, hne]

lemma bumpHit_step (now : Nat) (n : String) (cat : List CatalogRow)
    (h : cat.any (fun r => r.table_name == n) = true) :
    bumpHit now n cat = cat.map (fun r =>
      if r.table_name == n then { r with hits := r.hits + 1, last_hit := now } else r) := by
  unfold bumpHit
  rw [if_pos h]

lemma bumpUpdate_step (now : Nat) (n : String) (cat : List CatalogRow)
    (h : cat.any (fun r => r.table_name == n) = true) :
    bumpUpdate now n cat = cat.map (fun r =>
      if r.table_name == n then { r with updates := r.updates + 1, updated := now } else r) := by
  unfold bumpUpdate
  rw [if_pos h]

/-- The batched hit upsert on a duplicate-free set of already-present names is
a single map bumping `hits`/`last_hit` of exactly the named rows. -/
lemma applyHitUpsert_eq_map (tables : List String) (now : Nat) (cat : List CatalogRow)
    (hnd : tables.Nodup)
    (hall : ∀ t ∈ tables, cat.any (fun r => r.table_name == t) = true) :
    applyHitUpsert tables now cat = cat.map (fun r =>
      if tables.contains r.table_name then { r with hits := r.hits + 1, last_hit := now }
      else r) :=
  foldBump_eq_map _ (fun r => { r with hits := r.hits + 1, last_hit := now })
    (fun _ => rfl) (bumpHit_step now) tables cat hnd hall

/-- The batched update upsert, likewise. -/
lemma applyUpdateUpsert_eq_map (tables : List String) (now : Nat) (cat : List CatalogRow)
    (hnd : tables.Nodup)
    (hall : ∀ t ∈ tables, cat.any (fun r => r.table_name == t) = true) :
    applyUpdateUpsert tables now cat = cat.map (fun r =>
      if tables.contains r.table_name then { r with updates := r.updates + 1, updated := now }
      else r) :=
  foldBump_eq_map _ (fun r => { r with updates := r.updates + 1, updated := now })
    (fun _ => rfl) (bumpUpdate_step now) tables cat hnd hall

lemma parseMatches_nodup (pt : Option (List String)) (tables : List String) :
    (parseMatches pt tables).Nodup := by
  cases pt with
  | none => exact List.nodup_nil
  | some toks => exact List.nodup_dedup _

lemma findReferencedTables_nodup (pt : Option (List String)) (sql : String)
    (tables : List String) (h : tables.Nodup) :
    (findReferencedTables pt sql tables).Nodup := by
  unfold findReferencedTables
  by_cases hc : (parseMatches pt tables).isEmpty = true
  · rw [if_pos hc]
    exact List.Nodup.filter _ h
  · rw [if_neg hc]
    exact parseMatches_nodup pt tables

lemma askAvailableTables_nodup (s : DBState) (h : (s.datasets.map Prod.fst).Nodup) :
    (askAvailableTables s).Nodup :=
  List.Nodup.filter _ h

theorem C4_validation_before_upsert_witness :
    pseudoIngestValid "postgres" ((none : Option Etc).getD {}) [] = false ∧
    (pseudoIngest "t2" none none none "postgres" none [] 3
      ⟨[("iris", 0)], [{ table_name := "iris" }]⟩).isOk = false ∧
    (pseudoIngest "t2" none none none "postgres" none [] 3
      ⟨[("iris", 0)], [{ table_name := "iris" }]⟩).state =
      ⟨[("iris", 0)], [{ table_name := "iris" }]⟩ :=
  ⟨by decide,
    C4_validation_before_upsert "t2" none none none "postgres" none [] 3
      ⟨[("iris", 0)], [{ table_name := "iris" }]⟩ (by decide)⟩

/-- C6 counterexample: `log_table_update` called with a name that has no
catalog row inserts a fresh row (the `INSERT ... ON CONFLICT` statement's
insert arm), so the set of table names in the catalog grows — refuting the
claim that the middleware never creates a row.  Starting from an empty
catalog, logging an update for `"y"` leaves a catalog whose name set is
`["y"]` instead of the empty set. -/
theorem C6_counterexample :
    (⟨[], []⟩ : DBState).catalog.map CatalogRow.table_name = [] ∧
    (logTableUpdate ["y"] .ok 4 ⟨[], []⟩).state.catalog.map CatalogRow.table_name = ["y"] ∧
    (logTableUsage ["z"] .ok 4 ⟨[], []⟩).state.catalog.map CatalogRow.table_name = ["z"] :=
  ⟨rfl, rfl, rfl⟩

/-- C6 (amended): when every supplied name already has a catalog row and the
supplied list is duplicate-free, `log_table_usage` and `log_table_update`
preserve the set of catalog names under every engine outcome, and on success
their whole effect is a single map that bumps `hits`/`last_hit`
(respectively `updates`/`updated`) of exactly the named rows, leaving every
other field and every other row unchanged.  (Names without a row instead get
a fresh default row, the behaviour the counterexample exhibits.) -/
theorem C6_middleware_frame :
    ∀ (tables : List String) (now : Nat) (s : DBState),
      tables.Nodup →
      (∀ t ∈ tables, s.catalog.any (fun r => r.table_name == t) = true) →
      (∀ outcome : TxnOutcome,
        (logTableUsage tables outcome now s).state.catalog.map CatalogRow.table_name =
          s.catalog.map CatalogRow.table_name ∧
        (logTableUpdate tables outcome now s).state.catalog.map CatalogRow.table_name =
          s.catalog.map CatalogRow.table_name) ∧
      logTableUsage tables .ok now s = .ok { s with catalog := s.catalog.map (fun r =>
        if tables.contains r.table_name then { r with hits := r.hits + 1, last_hit := now }
        else r) } ∧
      logTableUpdate tables .ok now s = .ok { s with catalog := s.catalog.map (fun r =>
        if tables.contains r.table_name then { r with updates := r.updates + 1, updated := now }
        else r) } := by
  intro tables now s hnd hall
  have husage : logTableUsage tables .ok now s = .ok { s with catalog := s.catalog.map (fun r =>
      if tables.contains r.table_name then { r with hits := r.hits + 1, last_hit := now }
      else r) } := by
    unfold logTableUsage
    rw [applyHitUpsert_eq_map tables now s.catalog hnd hall]
  have hupdate : logTableUpdate tables .ok now s = .ok { s with catalog := s.catalog.map (fun r =>
      if tables.contains r.table_name then { r with updates := r.updates + 1, updated := now }
      else r) } := by
    unfold logTableUpdate
    rw [applyUpdateUpsert_eq_map tables now s.catalog hnd hall]
  refine ⟨fun outcome => ?_, husage, hupdate⟩
  cases outcome with
  | ok =>
    rw [husage, hupdate]
    constructor <;>
    · show (List.map _ (List.map _ s.catalog)) = _
      rw [List.map_map]
      apply List.map_congr_left
      intro r _
      rcases Decidable.em (r.table_name ∈ tables) with hc | hc <;>
        simp [Function.comp, hc]
  | conflict => exact ⟨rfl, rfl⟩
  | failure e => exact ⟨rfl, rfl⟩

theorem C6_middleware_frame_witness :
    (["iris"] : List String).Nodup ∧
    (∀ t ∈ (["iris"] : List String),
      ([{ table_name := "iris" } ] : List CatalogRow).any (fun r => r.table_name == t) = true) ∧
    logTableUsage ["iris"] .ok 9 ⟨[("iris", 0)], [{ table_name := "iris" }]⟩ =
      .ok { datasets := [("iris", 0)],
            catalog := [{ table_name := "iris" }].map (fun r =>
              if (["iris"] : List String).contains r.table_name then
                { r with hits := r.hits + 1, last_hit := 9 } else r) } :=
  ⟨by decide, by decide,
    (C6_middleware_frame ["iris"] 9 ⟨[("iris", 0)], [{ table_name := "iris" }]⟩
      (by decide) (by decide)).2.1⟩

/-- C7: each table the query is detected to reference gets its `hits` counter
incremented by exactly 1 per execution, however many times its name occurs in
the statement (the detected set is duplicate-free), and the increment for the
whole referenced set is one batched `log_table_usage` upsert whose effect is
a single map over the catalog. -/
theorem C7_one_hit_per_referenced_table :
    ∀ (pt : Option (List String)) (sql : String) (now : Nat) (s : DBState),
      (s.datasets.map Prod.fst).Nodup →
      (findReferencedTables pt sql (askAvailableTables s)).Nodup ∧
      ((∀ t ∈ findReferencedTables pt sql (askAvailableTables s),
          s.catalog.any (fun r => r.table_name == t) = true) →
        logQuery pt sql .ok now s = .ok { s with catalog := s.catalog.map (fun r =>
          if (findReferencedTables pt sql (askAvailableTables s)).contains r.table_name then
            { r with hits := r.hits + 1, last_hit := now }
          else r) }) := by
  intro pt sql now s hds
  have hnd : (findReferencedTables pt sql (askAvailableTables s)).Nodup :=
    findReferencedTables_nodup pt sql (askAvailableTables s) (askAvailableTables_nodup s hds)
  refine ⟨hnd, fun hall => ?_⟩
  cases hrefs : findReferencedTables pt sql (askAvailableTables s) with
  | nil =>
    have hq : logQuery pt sql .ok now s = .ok s := by
      unfold logQuery
      rw [hrefs]
    rw [hq]
    simp
  | cons t ts =>
    have hstep : logQuery pt sql .ok now s = logTableUsage (t :: ts) .ok now s := by
      unfold logQuery
      rw [hrefs]
    rw [hrefs] at hnd hall
    rw [hstep]
    unfold logTableUsage
    rw [applyHitUpsert_eq_map (t :: ts) now s.catalog hnd hall]

theorem C7_one_hit_per_referenced_table_witness :
    (([("iris", 0), ("economics", 1)] : List (String × Nat)).map Prod.fst).Nodup ∧
    logQuery (some ["SELECT", "*", "FROM", "iris", "JOIN", "iris", "ON", "x"])
        "SELECT * FROM iris JOIN iris ON x" .ok 11
        ⟨[("iris", 0), ("economics", 1)],
          [{ table_name := "iris" }, { table_name := "economics" }]⟩ =
      .ok { datasets := [("iris", 0), ("economics", 1)],
            catalog := [{ table_name := "iris" }, { table_name := "economics" }].map (fun r =>
              if (findReferencedTables
                    (some ["SELECT", "*", "FROM", "iris", "JOIN", "iris", "ON", "x"])
                    "SELECT * FROM iris JOIN iris ON x"
                    (askAvailableTables ⟨[("iris", 0), ("economics", 1)],
                      [{ table_name := "iris" }, { table_name := "economics" }]⟩)).contains
                  r.table_name then
                { r with hits := r.hits + 1, last_hit := 11 } else r) } :=
  ⟨by decide,
    (C7_one_hit_per_referenced_table
      (some ["SELECT", "*", "FROM", "iris", "JOIN", "iris", "ON", "x"])
      "SELECT * FROM iris JOIN iris ON x" 11
      ⟨[("iris", 0), ("economics", 1)],
        [{ table_name := "iris" }, { table_name := "economics" }]⟩
      (by decide)).2 (by decide)⟩

/-- C1 counterexample: re-ingesting an existing materialized table with a new
description leaves the old description in the catalog row — `DUCKDB.ingest`'s
`ON CONFLICT` clause only increments `updates` and refreshes `updated`, it
does not set the supplied fields — refuting the claim that a repeated upsert
via `ingest` updates every supplied field to the supplied value. -/
theorem C1_counterexample :
    (ingest 2 "iris" (some "new") (some "system") (some "unknown") 9
      ⟨[("iris", 0)], [{ table_name := "iris", table_description := some "old" }]⟩).isOk = true ∧
    (ingest 2 "iris" (some "new") (some "system") (some "unknown") 9
      ⟨[("iris", 0)], [{ table_name := "iris", table_description := some "old" }]⟩).state.catalog.map
        CatalogRow.table_description = [some "old"] ∧
    ¬ (∀ r ∈ (ingest 2 "iris" (some "new") (some "system") (some "unknown") 9
        ⟨[("iris", 0)], [{ table_name := "iris", table_description := some "old" }]⟩).state.catalog,
        r.table_name = "iris" → r.table_description = some "new") := by
  refine ⟨rfl, rfl, ?_⟩
  intro h
  have := h { table_name := "iris", table_description := some "old", updates := 1, updated := 9 }
    (by decide) rfl
  exact absurd this (by decide)

/-- C1 (amended): the catalog upserts behave as follows.  On an existing row,
`pseudo_ingest` updates every supplied field to the supplied value,
increments `updates` by exactly 1 and refreshes `updated`; `ingest` on an
existing row increments `updates` by exactly 1 and refreshes `updated` but
leaves the previously stored description/type/owner unchanged.  Both leave
the catalog's row list otherwise intact (no second row for the key), and on
an absent row both insert one full row built from the supplied params and the
DDL defaults. -/
theorem C1_upsert_semantics :
    (∀ (df : Nat) (tn : String) (d t o : Option String) (now : Nat) (s : DBState),
      (s.datasets.lookup tn).isSome = true →
      s.catalog.any (fun r => r.table_name == tn) = true →
      ingest df tn d t o now s = .ok
        { datasets := upsertDataset s.datasets tn df,
          catalog := s.catalog.map (fun r =>
            if r.table_name == tn then { r with updates := r.updates + 1, updated := now }
            else r) }) ∧
    (∀ (df : Nat) (tn : String) (d t o : Option String) (now : Nat) (s : DBState),
      (s.datasets.lookup tn).isSome = false →
      s.catalog.any (fun r => r.table_name == tn) = false →
      ingest df tn d t o now s = .ok
        { datasets := upsertDataset s.datasets tn df,
          catalog := s.catalog ++ [newRowFromParams tn d t o now] }) ∧
    (∀ (tn : String) (d t o : Option String) (etc0 : Option Etc)
        (clusters : List (String × ClusterInfo)) (now : Nat) (s : DBState),
      pseudoIngestValid "postgres" (etc0.getD {}) clusters = true →
      s.catalog.any (fun r => r.table_name == tn) = true →
      pseudoIngest tn d t o "postgres" etc0 clusters now s = .ok
        { s with catalog := s.catalog.map (fun r =>
          if r.table_name == tn then
            { r with
              table_description := match d with | some v => some v | none => r.table_description
              table_type := t.getD r.table_type
              owned_by := o.getD r.owned_by
              is_pseudo_table := true
              external_type := some "postgres"
              etc := etc0.getD {}
              updates := r.updates + 1
              updated := now }
          else r) }) ∧
    (∀ (tn : String) (d t o : Option String) (etc0 : Option Etc)
        (clusters : List (String × ClusterInfo)) (now : Nat) (s : DBState),
      pseudoIngestValid "postgres" (etc0.getD {}) clusters = true →
      s.catalog.any (fun r => r.table_name == tn) = false →
      pseudoIngest tn d t o "postgres" etc0 clusters now s = .ok
        { s with catalog := s.catalog ++
          [{ newRowFromParams tn d t o now with
              is_pseudo_table := true, external_type := some "postgres",
              etc := etc0.getD {} }] }) := by
  refine ⟨?_, ?_, ?_, ?_⟩
  · intro df tn d t o now s hds hrow
    unfold ingest
    rw [hds, hrow]
    rfl
  · intro df tn d t o now s hds hrow
    unfold ingest
    rw [hds, hrow]
    rfl
  · intro tn d t o etc0 clusters now s hv hrow
    unfold pseudoIngestValid at hv
    rw [beq_self_eq_true, Bool.true_and, Bool.and_eq_true] at hv
    obtain ⟨hbc, hd⟩ := hv
    rw [Bool.and_eq_true] at hbc
    obtain ⟨hb, hc⟩ := hbc
    unfold pseudoIngest
    rw [hb, hc, hd, hrow]
    rfl
  · intro tn d t o etc0 clusters now s hv hrow
    unfold pseudoIngestValid at hv
    rw [beq_self_eq_true, Bool.true_and, Bool.and_eq_true] at hv
    obtain ⟨hbc, hd⟩ := hv
    rw [Bool.and_eq_true] at hbc
    obtain ⟨hb, hc⟩ := hbc
    unfold pseudoIngest
    rw [hb, hc, hd, hrow]
    rfl

theorem C1_upsert_semantics_witness :
    ((([("iris", 0)] : List (String × Nat)).lookup "iris").isSome = true) ∧
    (([{ table_name := "iris", table_description := some "old" }] : List CatalogRow).any
      (fun r => r.table_name == "iris") = true) ∧
    ingest 2 "iris" (some "new") (some "system") (some "unknown") 9
        ⟨[("iris", 0)], [{ table_name := "iris", table_description := some "old" }]⟩ = .ok
      { datasets := upsertDataset [("iris", 0)] "iris" 2,
        catalog := [({ table_name := "iris", table_description := some "old" } : CatalogRow)].map
          (fun r => if r.table_name == "iris" then
            { r with updates := r.updates + 1, updated := 9 } else r) } :=
  ⟨by decide, by decide,
    C1_upsert_semantics.1 2 "iris" (some "new") (some "system") (some "unknown") 9
      ⟨[("iris", 0)], [{ table_name := "iris", table_description := some "old" }]⟩
      (by decide) (by decide)⟩

/-- C2 counterexample: reference detection is not case-insensitive whenever
the sqlparse branch finds any known table.  With known tables
`["iris", "economics"]` and the query `SELECT * FROM economics JOIN "IRIS" ON
a = b` (whose parse tokens contain `economics` and the double-quoted
`"IRIS"`), the parse branch matches only `economics` — the cleaned token
`IRIS` is compared case-sensitively — and since the parse result is
non-empty the case-insensitive regex fallback never runs, so the `iris`
row's `hits` stays 0 while the claim requires it to be incremented. -/
theorem C2_counterexample :
    findReferencedTables
        (some ["SELECT", "*", "FROM", "economics", "JOIN", "\"IRIS\"", "ON", "a", "=", "b"])
        "SELECT * FROM economics JOIN \"IRIS\" ON a = b" ["iris", "economics"] =
      ["economics"] ∧
    (logQuery
        (some ["SELECT", "*", "FROM", "economics", "JOIN", "\"IRIS\"", "ON", "a", "=", "b"])
        "SELECT * FROM economics JOIN \"IRIS\" ON a = b" .ok 7
        ⟨[("iris", 0), ("economics", 1)],
          [{ table_name := "iris" }, { table_name := "economics" }]⟩).state.catalog.map
      (fun r => (r.table_name, r.hits)) = [("iris", 0), ("economics", 1)] := by
  constructor <;> decide

/-- C2 (amended): quote-stripping works in the parse branch but only for
exact-case names — any parse token whose stripped form equals a known table
name (so `"iris"`, backquoted or single-quoted variants of the exact-case
name) puts that table in the referenced set; case-insensitive matching holds
only through the regex fallback, which runs exactly when the parse branch
produced no known-table match at all, and then detects every known table
with a whole-word, case-insensitive occurrence in the raw SQL. -/
theorem C2_detection_cases :
    (∀ (toks : List String) (sql : String) (tables : List String) (tok t : String),
      tok ∈ toks → cleanToken tok = t → t ∈ tables →
      t ∈ findReferencedTables (some toks) sql tables) ∧
    (∀ (pt : Option (List String)) (sql : String) (tables : List String) (t : String),
      parseMatches pt tables = [] → t ∈ tables →
      wholeWordMatch (strUpper sql) (strUpper t) = true →
      t ∈ findReferencedTables pt sql tables) := by
  constructor
  · intro toks sql tables tok t htok hclean htmem
    have hpm : t ∈ parseMatches (some toks) tables := by
      unfold parseMatches
      rw [List.mem_dedup, List.mem_filter]
      exact ⟨List.mem_map.mpr ⟨tok, htok, hclean⟩, contains_eq_true_of_mem htmem⟩
    unfold findReferencedTables
    by_cases hc : (parseMatches (some toks) tables).isEmpty = true
    · rw [List.isEmpty_iff] at hc
      rw [hc] at hpm
      exact absurd hpm (List.not_mem_nil t)
    · rw [if_neg hc]
      exact hpm
  · intro pt sql tables t hpm htmem hww
    unfold findReferencedTables
    rw [hpm]
    exact List.mem_filter.mpr ⟨htmem, hww⟩

theorem C2_detection_cases_witness :
    (("\"iris\"" : String) ∈ (["SELECT", "\"iris\""] : List String) ∧
      cleanToken "\"iris\"" = "iris" ∧ ("iris" : String) ∈ (["iris"] : List String) ∧
      ("iris" : String) ∈ findReferencedTables (some ["SELECT", "\"iris\""])
        "SELECT \"iris\"" ["iris"]) ∧
    (parseMatches (some ["SELECT", "*", "FROM", "IRIS"]) ["iris"] = [] ∧
      ("iris" : String) ∈ (["iris"] : List String) ∧
      wholeWordMatch (strUpper "SELECT * FROM IRIS") (strUpper "iris") = true ∧
      ("iris" : String) ∈ findReferencedTables (some ["SELECT", "*", "FROM", "IRIS"])
        "SELECT * FROM IRIS" ["iris"]) :=
  ⟨⟨by decide, by decide, by decide,
      C2_detection_cases.1 ["SELECT", "\"iris\""] "SELECT \"iris\"" ["iris"] "\"iris\"" "iris"
        (by decide) (by decide) (by decide)⟩,
    ⟨by decide, by decide, by decide,
      C2_detection_cases.2 (some ["SELECT", "*", "FROM", "IRIS"]) "SELECT * FROM IRIS"
        ["iris"] "iris" (by decide) (by decide) (by decide)⟩⟩

lemma lookup_isSome_iff {α : Type} (x : String) (l : List (String × α)) :
    (l.lookup x).isSome = true ↔ x ∈ l.map Prod.fst := by
  induction l with
  | nil => simp
  | cons p ps ih =>
    obtain ⟨k, v⟩ := p
    by_cases h : x = k
    · subst h
      simp [List.lookup_cons]
    · have hbeq : (x == k) = false := by
        simpa using h
      simp [List.lookup_cons, hbeq, h, ih]

lemma lookup_eq_none_iff {α : Type} (x : String) (l : List (String × α)) :
    l.lookup x = none ↔ x ∉ l.map Prod.fst := by
  rw [← Option.not_isSome_iff_eq_none, lookup_isSome_iff]

/-- The keys of a Python dict union: the keys of the left dict followed by the
keys of the right dict that are not already present on the left. -/
lemma dictUnion_keys {α : Type} (l r : List (String × α)) :
    (dictUnion l r).map Prod.fst =
      l.map Prod.fst ++ (r.filter (fun p => (l.lookup p.1).isNone)).map Prod.fst := by
  unfold dictUnion
  rw [List.map_append, List.map_map]
  congr 1
  apply List.map_congr_left
  intro p _
  cases hp : r.lookup p.1 <;> simp [Function.comp, hp]

lemma keys_of_pair_map {β : Type} (v : β) (l : List String) :
    (l.map (fun t => (t, v))).map Prod.fst = l := by
  induction l with
  | nil => rfl
  | cons a as ih => simp [ih]

lemma keys_of_fst_pair_map {α β : Type} (v : β) (l : List (String × α)) :
    (l.map (fun p => (p.1, v))).map Prod.fst = l.map Prod.fst := by
  induction l with
  | nil => rfl
  | cons a as ih => simp [ih]

lemma mem_filter_keys {α : Type} (l r : List (String × α)) (x : String) :
    x ∈ (r.filter (fun p => (l.lookup p.1).isNone)).map Prod.fst ↔
      x ∈ r.map Prod.fst ∧ (l.lookup x).isNone = true := by
  constructor
  · intro hx
    obtain ⟨p, hp, rfl⟩ := List.mem_map.mp hx
    obtain ⟨hpr, hcond⟩ := List.mem_filter.mp hp
    exact ⟨List.mem_map.mpr ⟨p, hpr, rfl⟩, by simpa using hcond⟩
  · rintro ⟨hx, hnone⟩
    obtain ⟨p, hp, rfl⟩ := List.mem_map.mp hx
    exact List.mem_map.mpr ⟨p, List.mem_filter.mpr ⟨hp, by simpa using hnone⟩, rfl⟩

/-- C8: resolution never throws on a miss.  `get_connector` returns `None`
for a name absent from both table enumerations; `get_connection_detail` for
an external table returns `None` (swallowing the internal error) when the
cluster is missing from the registry, and likewise when the registered
cluster's merged connection properties are incomplete (pydantic validation
failure). -/
theorem C8_resolution_returns_none :
    (∀ (s : DBState) (tn : String),
      tn ∉ askAvailableTables s → tn ∉ (askAvailableTablesPg s).map Prod.fst →
      getConnector s tn = none) ∧
    (∀ (e : Etc) (clusters : List (String × ClusterInfo)) (c : String),
      e.cluster = some c → clusters.lookup c = none →
      getConnectionDetail "postgres" e clusters = none) ∧
    (∀ (e : Etc) (clusters : List (String × ClusterInfo)) (c : String) (info : ClusterInfo),
      e.cluster = some c → clusters.lookup c = some info → info.port = none →
      getConnectionDetail "postgres" e clusters = none) := by
  refine ⟨?_, ?_, ?_⟩
  · intro s tn hd hp
    unfold getConnector
    rw [lookup_eq_none_iff, dictUnion_keys]
    intro hmem
    rcases List.mem_append.mp hmem with hmem | hmem
    · rw [keys_of_pair_map] at hmem
      exact hd hmem
    · have := (mem_filter_keys _ _ tn).mp hmem
      rw [keys_of_fst_pair_map] at this
      exact hp this.1
  · intro e clusters c hc hcl
    cases hcfn : e.cluster_friendly_name <;> cases hdb : e.database <;>
      simp [getConnectionDetail, getConnectionDetailInner, hc, hcl, hcfn, hdb]
  · intro e clusters c info hc hcl hport
    cases hcfn : e.cluster_friendly_name <;> cases hdb : e.database <;>
      cases hbc : info.cluster <;>
      simp [getConnectionDetail, getConnectionDetailInner, hc, hcl, hcfn, hdb, hbc, hport]

theorem C8_resolution_returns_none_witness :
    (("t3" : String) ∉ askAvailableTables ⟨[("iris", 0)], [{ table_name := "iris" }]⟩ ∧
      ("t3" : String) ∉
        (askAvailableTablesPg ⟨[("iris", 0)], [{ table_name := "iris" }]⟩).map Prod.fst ∧
      getConnector ⟨[("iris", 0)], [{ table_name := "iris" }]⟩ "t3" = none) ∧
    ((⟨some "c1", some "C", some "d1", some "q", none⟩ : Etc).cluster = some "c1" ∧
      ([] : List (String × ClusterInfo)).lookup "c1" = none ∧
      getConnectionDetail "postgres" ⟨some "c1", some "C", some "d1", some "q", none⟩ [] = none) :=
  ⟨⟨by decide, by decide,
      C8_resolution_returns_none.1 ⟨[("iris", 0)], [{ table_name := "iris" }]⟩ "t3"
        (by decide) (by decide)⟩,
    ⟨rfl, rfl,
      C8_resolution_returns_none.2.1 ⟨some "c1", some "C", some "d1", some "q", none⟩ [] "c1"
        rfl rfl⟩⟩

lemma duck_filterMap (l : List String) (clusters : List (String × ClusterInfo)) :
    l.filterMap (fun t => (getConnectionDetail "duck" {} clusters).map (fun d => (t, d))) =
      l.map (fun t => (t, ConnectionDetail.duck)) := by
  have hfun : (fun t => (getConnectionDetail "duck" {} clusters).map
        (fun d => ((t, d) : String × ConnectionDetail))) =
      some ∘ (fun t : String => (t, ConnectionDetail.duck)) := rfl
  rw [hfun, List.filterMap_eq_map]

lemma pg_keys_sublist {β γ : Type} (f : String × β → Option γ) (l : List (String × β)) :
    ((l.filterMap (fun p => (f p).map (fun d => (p.1, d)))).map Prod.fst).Sublist
      (l.map Prod.fst) := by
  induction l with
  | nil => simp
  | cons a as ih =>
    cases hf : f a with
    | none =>
      simp only [List.filterMap_cons, hf, Option.map_none', List.map_cons]
      exact ih.cons _
    | some d =>
      simp only [List.filterMap_cons, hf, Option.map_some', List.map_cons]
      exact ih.cons₂ _

lemma mem_pg_keys {β γ : Type} (f : String × β → Option γ) (l : List (String × β))
    (x : String) :
    x ∈ (l.filterMap (fun p => (f p).map (fun d => (p.1, d)))).map Prod.fst ↔
      ∃ b, (x, b) ∈ l ∧ f (x, b) ≠ none := by
  constructor
  · intro hx
    obtain ⟨q, hq, rfl⟩ := List.mem_map.mp hx
    obtain ⟨p, hp, hfp⟩ := List.mem_filterMap.mp hq
    obtain ⟨d, hfd, hpd⟩ := Option.map_eq_some'.mp hfp
    subst hpd
    refine ⟨p.2, ?_, ?_⟩
    · simpa using hp
    · simpa using Option.ne_none_iff_exists'.mpr ⟨d, hfd⟩
  · rintro ⟨b, hb, hne⟩
    obtain ⟨d, hd⟩ := Option.ne_none_iff_exists'.mp hne
    exact List.mem_map.mpr
      ⟨(x, d), List.mem_filterMap.mpr ⟨(x, b), hb, by rw [hd]; rfl⟩, rfl⟩

lemma askAvailableTablesPg_keys_nodup (s : DBState)
    (h : (s.catalog.map CatalogRow.table_name).Nodup) :
    ((askAvailableTablesPg s).map Prod.fst).Nodup := by
  unfold askAvailableTablesPg
  rw [List.map_map]
  have hcomp : (Prod.fst ∘ fun (r : CatalogRow) => (r.table_name, r.etc)) =
      CatalogRow.table_name := rfl
  rw [hcomp]
  exact ((List.filter_sublist _).map _).nodup h

lemma friendlyName_ne_empty (cd : ConnectionDetail) : friendlyName cd ≠ "" := by
  cases cd with
  | duck =>
    intro h
    exact absurd h (by decide)
  | postgres c cfn p u pw db =>
    intro h
    simp only [friendlyName] at h
    have hlen := congrArg String.length h
    rw [String.length_append, String.length_append, String.length_append] at hlen
    have h1 : ("PostgreSQL: " : String).length = 12 := rfl
    have h2 : ("@" : String).length = 1 := rfl
    have h3 : ("" : String).length = 0 := rfl
    rw [h1, h2, h3] at hlen
    omega

lemma dictUnion_keys_nodup {α : Type} (l r : List (String × α))
    (hl : (l.map Prod.fst).Nodup) (hr : (r.map Prod.fst).Nodup) :
    ((dictUnion l r).map Prod.fst).Nodup := by
  rw [dictUnion_keys, List.nodup_append]
  refine ⟨hl, ((List.filter_sublist _).map _).nodup hr, ?_⟩
  intro x hx1 hx2
  have h2 := (mem_filter_keys l r x).mp hx2
  exact (lookup_eq_none_iff x l).mp (Option.isNone_iff_eq_none.mp h2.2) hx1

/-- C9 counterexample: the duck half of the connection map is keyed on the
materialized tables that survive the system-table denylist, not on the
catalog.  A catalog row named `notebooks` (a denylisted name) with a
materialized table is resolvable (`get_connection_detail 'duck'` always
succeeds) yet absent from the rebuilt map, refuting "every table name present
in the catalog whose backend is resolvable appears exactly once as a key". -/
theorem C9_counterexample :
    (∃ r ∈ (⟨[("notebooks", 0)], [{ table_name := "notebooks" }]⟩ : DBState).catalog,
      r.table_name = "notebooks") ∧
    getConnectionDetail "duck" {} [] = some ConnectionDetail.duck ∧
    (updateConnectionMap ⟨[("notebooks", 0)], [{ table_name := "notebooks" }]⟩ []).lookup
      "notebooks" = none :=
  ⟨⟨{ table_name := "notebooks" }, by decide, rfl⟩, rfl, rfl⟩

/-- C9 (amended): after a rebuild, the map's keys are duplicate-free; every
entry's `friendly_name` is non-empty; and a name is a key exactly when it is
an available materialized table (outside the denylist/wildcard exclusions —
the duck side always resolves) or a registered postgres pseudo-table whose
resolution returned a connection; entries whose resolution returned `None`
are absent. -/
theorem C9_connection_map :
    ∀ (s : DBState) (clusters : List (String × ClusterInfo)),
      (s.datasets.map Prod.fst).Nodup →
      (s.catalog.map CatalogRow.table_name).Nodup →
      ((updateConnectionMap s clusters).map Prod.fst).Nodup ∧
      (∀ p ∈ updateConnectionMap s clusters, friendlyName p.2 ≠ "") ∧
      (∀ tn : String, tn ∈ (updateConnectionMap s clusters).map Prod.fst ↔
        tn ∈ askAvailableTables s ∨
        ∃ e : Etc, (tn, e) ∈ askAvailableTablesPg s ∧
          getConnectionDetail "postgres" e clusters ≠ none) := by
  intro s clusters hds hcat
  unfold updateConnectionMap
  rw [duck_filterMap]
  refine ⟨?_, ?_, ?_⟩
  · apply dictUnion_keys_nodup
    · rw [keys_of_pair_map]
      exact askAvailableTables_nodup s hds
    · exact (pg_keys_sublist _ _).nodup (askAvailableTablesPg_keys_nodup s hcat)
  · intro p _
    exact friendlyName_ne_empty p.2
  · intro tn
    constructor
    · intro h
      rw [dictUnion_keys, List.mem_append] at h
      rcases h with h | h
      · rw [keys_of_pair_map] at h
        exact Or.inl h
      · have h2 := (mem_filter_keys _ _ tn).mp h
        obtain ⟨e, he, hne⟩ := (mem_pg_keys _ _ tn).mp h2.1
        exact Or.inr ⟨e, he, hne⟩
    · intro h
      rw [dictUnion_keys, List.mem_append]
      rcases h with h | ⟨e, he, hne⟩
      · left
        rw [keys_of_pair_map]
        exact h
      · by_cases hd : tn ∈ askAvailableTables s
        · left
          rw [keys_of_pair_map]
          exact hd
        · right
          apply (mem_filter_keys _ _ tn).mpr
          refine ⟨(mem_pg_keys _ _ tn).mpr ⟨e, he, hne⟩, ?_⟩
          apply Option.isNone_iff_eq_none.mpr
          apply (lookup_eq_none_iff tn _).mpr
          rw [keys_of_pair_map]
          exact hd

theorem C9_connection_map_witness :
    ((([("iris", 0)] : List (String × Nat)).map Prod.fst).Nodup ∧
      (([{ table_name := "iris" },
          { table_name := "ext1", is_pseudo_table := true, external_type := some "postgres",
            etc := ⟨some "c1", some "C", some "d1", some "q", none⟩ }] : List CatalogRow).map
        CatalogRow.table_name).Nodup) ∧
    ((updateConnectionMap
      ⟨[("iris", 0)],
        [{ table_name := "iris" },
         { table_name := "ext1", is_pseudo_table := true, external_type := some "postgres",
           etc := ⟨some "c1", some "C", some "d1", some "q", none⟩ }]⟩
      [("c1", { databases := ["d1"], cluster := some "h", port := some 5432,
                username := some "u", password := some "p" })]).map Prod.fst).Nodup :=
  ⟨⟨by decide, by decide⟩,
    (C9_connection_map
      ⟨[("iris", 0)],
        [{ table_name := "iris" },
         { table_name := "ext1", is_pseudo_table := true, external_type := some "postgres",
           etc := ⟨some "c1", some "C", some "d1", some "q", none⟩ }]⟩
      [("c1", { databases := ["d1"], cluster := some "h", port := some 5432,
                username := some "u", password := some "p" })]
      (by decide) (by decide)).1⟩

lemma upsertDataset_lookup_self (ds : List (String × Nat)) (tn : String) (df : Nat) :
    (upsertDataset ds tn df).lookup tn = some df := by
  unfold upsertDataset
  rw [List.lookup_append]
  have hfil : (ds.filter (fun p => !(p.1 == tn))).lookup tn = none := by
    induction ds with
    | nil => rfl
    | cons p ps ih =>
      obtain ⟨k, v⟩ := p
      by_cases hk : (k == tn) = true
      · simp only [List.filter_cons, hk, Bool.not_true, Bool.false_eq_true, if_false]
        exact ih
      · have hkk : (k == tn) = false := eq_false_of_ne_true hk
        have htk : (tn == k) = false := by
          have : ¬ k = tn := by simpa using hk
          simpa using fun h => this h.symm
        simp only [List.filter_cons, hkk, Bool.not_false, if_true, List.lookup_cons, htk]
        exact ih
  rw [hfil]
  simp [List.lookup_cons]

lemma upsertDataset_lookup_ne (ds : List (String × Nat)) (tn : String) (df : Nat)
    (n : String) (h : ¬ n = tn) :
    (upsertDataset ds tn df).lookup n = ds.lookup n := by
  unfold upsertDataset
  rw [List.lookup_append]
  have hnt : (n == tn) = false := by simpa using h
  have hlast : List.lookup n [(tn, df)] = none := by
    simp [List.lookup_cons, hnt]
  rw [hlast]
  have hfil : (ds.filter (fun p => !(p.1 == tn))).lookup n = ds.lookup n := by
    induction ds with
    | nil => rfl
    | cons p ps ih =>
      obtain ⟨k, v⟩ := p
      by_cases hk : (k == tn) = true
      · have hnk : (n == k) = false := by
          have hktn : k = tn := beq_iff_eq.mp hk
          subst hktn
          exact hnt
        simp only [List.filter_cons, hk, Bool.not_true, Bool.false_eq_true, if_false,
          List.lookup_cons, hnk]
        exact ih
      · have hkk : (k == tn) = false := eq_false_of_ne_true hk
        by_cases hnk : (n == k) = true
        · simp [List.filter_cons, hkk, List.lookup_cons, hnk]
        · have hnk' : (n == k) = false := eq_false_of_ne_true hnk
          simp only [List.filter_cons, hkk, Bool.not_false, if_true, List.lookup_cons, hnk']
          exact ih
  rw [hfil]
  cases ds.lookup n <;> rfl

lemma rowsInv_append (ds : List (String × Nat)) (cat : List CatalogRow) (row : CatalogRow)
    (h : rowsInv ds cat)
    (hrow : (row.is_pseudo_table = true ↔ row.external_type ≠ none) ∧
      (row.external_type = none → (ds.lookup row.table_name).isSome = true) ∧
      (row.external_type = some "postgres" → (ds.lookup row.table_name).isSome = false)) :
    rowsInv ds (cat ++ [row]) := by
  intro r hr
  rcases List.mem_append.mp hr with hr | hr
  · exact h r hr
  · have hreq : r = row := by simpa using hr
    subst hreq
    exact hrow

lemma rowsInv_map (ds : List (String × Nat)) (cat : List CatalogRow)
    (f : CatalogRow → CatalogRow)
    (hf : ∀ r, (f r).table_name = r.table_name ∧ (f r).is_pseudo_table = r.is_pseudo_table ∧
      (f r).external_type = r.external_type)
    (h : rowsInv ds cat) : rowsInv ds (cat.map f) := by
  intro r hr
  obtain ⟨r0, hr0, rfl⟩ := List.mem_map.mp hr
  obtain ⟨e1, e2, e3⟩ := hf r0
  rw [e1, e2, e3]
  exact h r0 hr0

/-- Replacing the materialized table `tn` keeps the catalog invariant as long
as no catalog row of that name is external. -/
lemma rowsInv_upsertDataset (ds : List (String × Nat)) (tn : String) (df : Nat)
    (cat : List CatalogRow) (h : rowsInv ds cat)
    (hext : ∀ r ∈ cat, r.table_name = tn → r.external_type = none) :
    rowsInv (upsertDataset ds tn df) cat := by
  intro r hr
  obtain ⟨h1, h2, h3⟩ := h r hr
  by_cases hn : r.table_name = tn
  · refine ⟨h1, ?_, ?_⟩
    · intro _
      rw [hn, upsertDataset_lookup_self]
      rfl
    · intro hpg
      rw [hext r hr hn] at hpg
      exact Option.noConfusion hpg
  · refine ⟨h1, ?_, ?_⟩
    · intro hx
      rw [upsertDataset_lookup_ne ds tn df r.table_name hn]
      exact h2 hx
    · intro hx
      rw [upsertDataset_lookup_ne ds tn df r.table_name hn]
      exact h3 hx

/-- Per-name and folded invariant preservation for the counter upserts,
generic over the bumped fields: the update preserves the identifying fields
and the fresh row is a default (local, `external_type` null) row. -/
lemma stepBump_rowsInv (ds : List (String × Nat))
    (upd : CatalogRow → CatalogRow)
    (hupd : ∀ r, (upd r).table_name = r.table_name ∧
      (upd r).is_pseudo_table = r.is_pseudo_table ∧ (upd r).external_type = r.external_type)
    (fresh : String → CatalogRow)
    (hfresh : ∀ n, (fresh n).table_name = n ∧ (fresh n).is_pseudo_table = false ∧
      (fresh n).external_type = none)
    (step : String → List CatalogRow → List CatalogRow)
    (hstep_pos : ∀ n c, c.any (fun r => r.table_name == n) = true →
      step n c = c.map (fun r => if r.table_name == n then upd r else r))
    (hstep_neg : ∀ n c, c.any (fun r => r.table_name == n) = false →
      step n c = c ++ [fresh n]) :
    (∀ n cat, rowsInv ds cat →
      (cat.any (fun r => r.table_name == n) = true ∨ (ds.lookup n).isSome = true) →
      rowsInv ds (step n cat)) ∧
    (∀ n m cat, cat.any (fun r => r.table_name == m) = true →
      (step n cat).any (fun r => r.table_name == m) = true) ∧
    (∀ (tables : List String) (cat : List CatalogRow), rowsInv ds cat →
      (∀ u ∈ tables, cat.any (fun r => r.table_name == u) = true ∨
        (ds.lookup u).isSome = true) →
      rowsInv ds (tables.foldl (fun c n => step n c) cat)) := by
  have hone : ∀ n cat, rowsInv ds cat →
      (cat.any (fun r => r.table_name == n) = true ∨ (ds.lookup n).isSome = true) →
      rowsInv ds (step n cat) := by
    intro n cat hinv hcond
    by_cases hany : cat.any (fun r => r.table_name == n) = true
    · rw [hstep_pos n cat hany]
      apply rowsInv_map ds cat _ ?_ hinv
      intro r
      by_cases hb : (r.table_name == n) = true
      · rw [if_pos hb]
        exact hupd r
      · rw [if_neg hb]
        exact ⟨rfl, rfl, rfl⟩
    · have hany' := eq_false_of_ne_true hany
      rw [hstep_neg n cat hany']
      apply rowsInv_append ds cat _ hinv
      obtain ⟨f1, f2, f3⟩ := hfresh n
      have hds : (ds.lookup n).isSome = true := by
        rcases hcond with hcond | hcond
        · exact absurd hcond hany
        · exact hcond
      refine ⟨?_, ?_, ?_⟩
      · rw [f2, f3]
        simp
      · intro _
        rw [f1]
        exact hds
      · intro hx
        rw [f3] at hx
        exact Option.noConfusion hx
  have hmono : ∀ n m cat, cat.any (fun r => r.table_name == m) = true →
      (step n cat).any (fun r => r.table_name == m) = true := by
    intro n m cat h
    by_cases hany : cat.any (fun r => r.table_name == n) = true
    · rw [hstep_pos n cat hany]
      have := any_name_map upd (fun r => (hupd r).1) n m cat
      rw [this]
      exact h
    · rw [hstep_neg n cat (eq_false_of_ne_true hany), List.any_append]
      rw [h]
      rfl
  refine ⟨hone, hmono, ?_⟩
  intro tables
  induction tables with
  | nil =>
    intro cat hinv _
    exact hinv
  | cons u us ih =>
    intro cat hinv hall
    rw [List.foldl_cons]
    apply ih
    · exact hone u cat hinv (hall u (List.mem_cons_self u us))
    · intro w hw
      rcases hall w (List.mem_cons_of_mem u hw) with hh | hh
      · exact Or.inl (hmono u w cat hh)
      · exact Or.inr hh

/-- C5 counterexample: the hit upsert of `log_table_usage` creates a default
(`external_type` null, not pseudo) catalog row for a name with no
materialized table, so the invariant "every row with `external_type` null has
a corresponding materialized table" is not preserved: starting from the empty
(invariant-satisfying) state, logging a hit for `"x"` leaves a row `x` with
`external_type` null and no materialized table. -/
theorem C5_counterexample :
    catalogInvariant (⟨[], []⟩ : DBState) ∧
    ¬ catalogInvariant (logTableUsage ["x"] .ok 3 ⟨[], []⟩).state := by
  constructor
  · decide
  · decide

/-- C5 (amended): the operations preserve the catalog invariant under the
matching-kind side conditions the counterexample shows to be necessary:
`ingest` when no catalog row of the name is external (no local/pseudo
crossover), `pseudo_ingest` when the name has no materialized table, and the
two counter-logging operations when every supplied name already has a catalog
row or a materialized table. -/
theorem C5_invariant_preservation :
    (∀ (df : Nat) (tn : String) (d t o : Option String) (now : Nat) (s : DBState),
      catalogInvariant s →
      (∀ r ∈ s.catalog, r.table_name = tn → r.external_type = none) →
      catalogInvariant (ingest df tn d t o now s).state) ∧
    (∀ (tn : String) (d t o : Option String) (et : String) (etc0 : Option Etc)
        (clusters : List (String × ClusterInfo)) (now : Nat) (s : DBState),
      catalogInvariant s →
      (s.datasets.lookup tn).isSome = false →
      catalogInvariant (pseudoIngest tn d t o et etc0 clusters now s).state) ∧
    (∀ (tables : List String) (outcome : TxnOutcome) (now : Nat) (s : DBState),
      catalogInvariant s →
      (∀ n ∈ tables, s.catalog.any (fun r => r.table_name == n) = true ∨
        (s.datasets.lookup n).isSome = true) →
      catalogInvariant (logTableUsage tables outcome now s).state) ∧
    (∀ (tables : List String) (outcome : TxnOutcome) (now : Nat) (s : DBState),
      catalogInvariant s →
      (∀ n ∈ tables, s.catalog.any (fun r => r.table_name == n) = true ∨
        (s.datasets.lookup n).isSome = true) →
      catalogInvariant (logTableUpdate tables outcome now s).state) := by
  refine ⟨?_, ?_, ?_, ?_⟩
  · intro df tn d t o now s hinv hext
    cases hds : (s.datasets.lookup tn).isSome with
    | true =>
      cases hrow : s.catalog.any (fun r => r.table_name == tn) with
      | true =>
        rw [ingest_existing_eq df tn d t o now s hds hrow]
        show rowsInv (upsertDataset s.datasets tn df) (s.catalog.map (fun r =>
          if r.table_name == tn then { r with updates := r.updates + 1, updated := now }
          else r))
        apply rowsInv_map _ _ _ ?_ (rowsInv_upsertDataset s.datasets tn df s.catalog hinv hext)
        intro r
        by_cases hb : (r.table_name == tn) = true
        · rw [if_pos hb]
          exact ⟨rfl, rfl, rfl⟩
        · rw [if_neg hb]
          exact ⟨rfl, rfl, rfl⟩
      | false =>
        rw [ingest_matonly_eq df tn d t o now s hds hrow]
        show rowsInv (upsertDataset s.datasets tn df)
          (s.catalog ++ [{ newRowFromParams tn d t o now with updates := 1, updated := now }])
        apply rowsInv_append _ _ _ (rowsInv_upsertDataset s.datasets tn df s.catalog hinv hext)
        refine ⟨by simp [newRowFromParams, catalogDefaults], ?_, ?_⟩
        · intro _
          show ((upsertDataset s.datasets tn df).lookup tn).isSome = true
          rw [upsertDataset_lookup_self]
          rfl
        · intro hx
          exact Option.noConfusion hx
    | false =>
      cases hrow : s.catalog.any (fun r => r.table_name == tn) with
      | true =>
        exfalso
        obtain ⟨r0, hr0, hbeq⟩ := List.any_eq_true.mp hrow
        have hname : r0.table_name = tn := beq_iff_eq.mp hbeq
        have hsome := (hinv r0 hr0).2.1 (hext r0 hr0 hname)
        rw [hname] at hsome
        rw [hsome] at hds
        exact Bool.noConfusion hds
      | false =>
        rw [ingest_fresh_eq df tn d t o now s hds hrow]
        show rowsInv (upsertDataset s.datasets tn df)
          (s.catalog ++ [newRowFromParams tn d t o now])
        apply rowsInv_append _ _ _ (rowsInv_upsertDataset s.datasets tn df s.catalog hinv hext)
        refine ⟨by simp [newRowFromParams, catalogDefaults], ?_, ?_⟩
        · intro _
          show ((upsertDataset s.datasets tn df).lookup tn).isSome = true
          rw [upsertDataset_lookup_self]
          rfl
        · intro hx
          exact Option.noConfusion hx
  · intro tn d t o et etc0 clusters now s hinv hds
    by_cases hv : pseudoIngestValid et (etc0.getD {}) clusters = true
    · obtain ⟨ha, _, _, _⟩ := pseudoIngestValid_split _ _ _ hv
      have het : et = "postgres" := beq_iff_eq.mp ha
      subst het
      cases hrow : s.catalog.any (fun r => r.table_name == tn) with
      | true =>
        rw [pseudoIngest_existing_eq tn d t o etc0 clusters now s hv hrow]
        show rowsInv s.datasets (s.catalog.map (fun r =>
          if r.table_name == tn then
            { r with
              table_description := match d with | some v => some v | none => r.table_description
              table_type := t.getD r.table_type
              owned_by := o.getD r.owned_by
              is_pseudo_table := true
              external_type := some "postgres"
              etc := etc0.getD {}
              updates := r.updates + 1
              updated := now }
          else r))
        intro r hr
        obtain ⟨r0, hr0, rfl⟩ := List.mem_map.mp hr
        by_cases hbq : (r0.table_name == tn) = true
        · rw [if_pos hbq]
          refine ⟨by simp, ?_, ?_⟩
          · intro hx
            exact Option.noConfusion hx
          · intro _
            show (s.datasets.lookup r0.table_name).isSome = false
            rw [beq_iff_eq.mp hbq]
            exact hds
        · rw [if_neg hbq]
          exact hinv r0 hr0
      | false =>
        rw [pseudoIngest_fresh_eq tn d t o etc0 clusters now s hv hrow]
        show rowsInv s.datasets (s.catalog ++
          [{ newRowFromParams tn d t o now with
              is_pseudo_table := true, external_type := some "postgres",
              etc := etc0.getD {} }])
        apply rowsInv_append _ _ _ hinv
        refine ⟨by simp, ?_, ?_⟩
        · intro hx
          exact Option.noConfusion hx
        · intro _
          show (s.datasets.lookup tn).isSome = false
          exact hds
    · have hstate :=
        (pseudoIngest_invalid_state tn d t o et etc0 clusters now s
          (eq_false_of_ne_true hv)).2
      show catalogInvariant (pseudoIngest tn d t o et etc0 clusters now s).state
      rw [hstate]
      exact hinv
  · intro tables outcome now s hinv hall
    cases outcome with
    | conflict => exact hinv
    | failure e => exact hinv
    | ok =>
      show rowsInv s.datasets (applyHitUpsert tables now s.catalog)
      have hgen := stepBump_rowsInv s.datasets
        (fun r => { r with hits := r.hits + 1, last_hit := now })
        (fun _ => ⟨rfl, rfl, rfl⟩)
        (fun n => { catalogDefaults n now with hits := 1 })
        (fun _ => ⟨rfl, rfl, rfl⟩)
        (bumpHit now)
        (bumpHit_step now)
        (fun n c h => by
          unfold bumpHit
          rw [if_neg (by simp [h])])
      exact hgen.2.2 tables s.catalog hinv hall
  · intro tables outcome now s hinv hall
    cases outcome with
    | conflict => exact hinv
    | failure e => exact hinv
    | ok =>
      show rowsInv s.datasets (applyUpdateUpsert tables now s.catalog)
      have hgen := stepBump_rowsInv s.datasets
        (fun r => { r with updates := r.updates + 1, updated := now })
        (fun _ => ⟨rfl, rfl, rfl⟩)
        (fun n => { catalogDefaults n now with updates := 1 })
        (fun _ => ⟨rfl, rfl, rfl⟩)
        (bumpUpdate now)
        (bumpUpdate_step now)
        (fun n c h => by
          unfold bumpUpdate
          rw [if_neg (by simp [h])])
      exact hgen.2.2 tables s.catalog hinv hall

theorem C5_invariant_preservation_witness :
    catalogInvariant (⟨[("iris", 0)], [{ table_name := "iris" }]⟩ : DBState) ∧
    (∀ n ∈ (["iris"] : List String),
      (([{ table_name := "iris" }] : List CatalogRow).any (fun r => r.table_name == n) = true ∨
        (([("iris", 0)] : List (String × Nat)).lookup n).isSome = true)) ∧
    catalogInvariant
      (logTableUsage ["iris"] .ok 5 ⟨[("iris", 0)], [{ table_name := "iris" }]⟩).state :=
  ⟨by decide, by decide,
    C5_invariant_preservation.2.2.1 ["iris"] .ok 5
      ⟨[("iris", 0)], [{ table_name := "iris" }]⟩ (by decide) (by decide)⟩

end DashSql
